import Mathlib

/-!
Shallow embedding of the motley Nexus 4 kernel CPU governors:

* `arch/arm/kernel/auto_hotplug.c` — the load-average CPU hotplug controller
  (namespace `AutoHotplug`);
* `drivers/thermal/msm_thermal.c` — the thermal frequency limiter with an
  emergency shutdown band (namespace `ThermalB`, the spec's "Variant B");
* the second thermal limiter variant appended to `auto_hotplug.c` (a
  max-throttle band, a `min_freq_index` floor and jump-to-max recovery,
  no shutdown band) — namespace `ThermalA` (the spec's "Variant A").

Machine integers are modelled as `Nat`/`Int` with explicit reduction
modulo 2^32 exactly where the C types (`unsigned int`/`int` on the 32-bit
ARM target) can wrap.  Deferred work items are modelled as pending bits of
an explicit state record: `schedule_*` sets the bit, `cancel_*` clears it,
and a work item can still execute after some call returns exactly when its
bit is still set afterwards (`cancel_delayed_work_sync` both clears the
bit and waits for a running instance, so a cleared bit means the item can
no longer fire).  Each work function body is embedded as a pure state
transformer; the kernel runs each controller's work items serialized, so
sequential composition of the transformers is the faithful execution
model, and the `emergency_shutdown_mutex` only reinforces that the
shutdown path of two overlapping samples runs serialized.
-/

/-- 2^32, the modulus of 32-bit machine arithmetic. -/
def U32 : Nat := 4294967296

/-- C unsigned 32-bit subtraction `a - b` (wraps modulo 2^32). -/
def usub32 (a b : Nat) : Nat := (a % U32 + (U32 - b % U32)) % U32

/-- Reinterpret a 32-bit unsigned value as a signed two's-complement int,
as the ARM/GCC target does when an unsigned expression is stored back into
a C `int`. -/
def toInt32 (n : Nat) : Int :=
  if n % U32 < 2147483648 then ((n % U32 : Nat) : Int)
  else ((n % U32 : Nat) : Int) - (U32 : Int)

/-- The unsigned 32-bit image of a C `int` value. -/
def uofInt (a : Int) : Nat := (a % (U32 : Int)).toNat

/-- C `int -= unsigned` : the subtraction happens in unsigned 32-bit
arithmetic and the result is stored back into the `int`. -/
def isub32 (a : Int) (b : Nat) : Int := toInt32 (uofInt a + (U32 - b % U32))

/-- C `int += unsigned`. -/
def iadd32 (a : Int) (b : Nat) : Int := toInt32 (uofInt a + b % U32)

namespace AutoHotplug

/-- The `flags` bitset of auto_hotplug.c: `HOTPLUG_DISABLED`,
`HOTPLUG_PAUSED`, `BOOSTPULSE_ACTIVE`, `EARLYSUSPEND_ACTIVE`. -/
structure Flags where
  disabled : Bool
  paused : Bool
  boost : Bool
  suspend : Bool
deriving DecidableEq, Repr

/-- Controller state: the flag bits plus one pending bit per work item
declared in auto_hotplug.c.  A pending bit is `true` exactly when that
work item is queued (`delayed_work_pending` / a `schedule_work` whose
function has not run yet), i.e. when it can still execute. -/
structure HState where
  flags : Flags
  pendingDecision : Bool
  pendingOffline : Bool
  pendingUnpause : Bool
  pendingOnlineAll : Bool
  pendingOnlineSingle : Bool
  pendingOfflineAll : Bool
deriving DecidableEq, Repr

/-- The summation loop of `hotplug_decision_work_fn`
(`for (i = 0, j = index; i < live_sampling_periods; i++, j--)`): the body
adds `history[j]`, resets `j` to `index_max_value` when `j == 0`, and the
loop update then decrements `j`.  Arguments: iterations left, current `j`,
`index_max_value`, the buffer, the accumulator. -/
def sumLoop : Nat → Nat → Nat → List Nat → Nat → Nat
  | 0, _, _, _, acc => acc
  | i + 1, j, bound, hist, acc =>
      sumLoop i ((if j = 0 then bound else j) - 1) bound hist
        (acc + hist.getD j 0)

/-- The average computed by `hotplug_decision_work_fn` from the circular
buffer `hist` (which already contains the sample just stored at `idx`),
with index bound `bound = index_max_value` and `live` sampling periods:
`avg_running / live_sampling_periods` after the summation loop. -/
def avg_running (hist : List Nat) (idx bound live : Nat) : Nat :=
  sumLoop live idx bound hist 0 / live

/-- The plain sum of all `live` entries of the circular buffer, i.e. the
sum of the most recent `live` stored samples. -/
def trueAvg (hist : List Nat) (live : Nat) : Nat := hist.sum / live

/-- The allocation-relevant state of the history buffer: `capacity` is the
number of ints actually allocated, `live` is `live_sampling_periods`,
`bound` is `index_max_value`. -/
structure BufState where
  capacity : Nat
  live : Nat
  bound : Nat
deriving DecidableEq, Repr

/-- The resize step at the top of `hotplug_decision_work_fn`: when
`live_sampling_periods != sampling_periods` it calls
`krealloc(history, live_sampling_periods * sizeof(int), ...)` — i.e. it
reallocates with the OLD length — and on allocation success sets
`live_sampling_periods = sampling_periods` and
`index_max_value = live_sampling_periods - 1`.  (The krealloc return
value is additionally discarded rather than stored back into `history`.) -/
def resizeStep (s : BufState) (sampling_periods : Nat) (allocOk : Bool) : BufState :=
  if s.live ≠ sampling_periods then
    if allocOk then
      { capacity := s.live
        live := sampling_periods
        bound := sampling_periods - 1 }
    else s
  else s

/-- `set_enable_all_load_threshold`: reject outside 270..550, else write. -/
def set_enable_all_load_threshold (old : Nat) (num : Int) : Int × Nat :=
  if 550 < num ∨ num < 270 then (-22, old) else (0, num.toNat)

/-- `set_enable_load_threshold`: reject outside 130..250, else write. -/
def set_enable_load_threshold (old : Nat) (num : Int) : Int × Nat :=
  if 250 < num ∨ num < 130 then (-22, old) else (0, num.toNat)

/-- `set_disable_load_threshold`: reject outside 40..125, else write. -/
def set_disable_load_threshold (old : Nat) (num : Int) : Int × Nat :=
  if 125 < num ∨ num < 40 then (-22, old) else (0, num.toNat)

/-- `set_min_sampling_rate`: reject outside 10..50, else write. -/
def set_min_sampling_rate (old : Nat) (num : Int) : Int × Nat :=
  if 50 < num ∨ num < 10 then (-22, old) else (0, num.toNat)

/-- `set_sampling_periods`: reject outside 5..50, else write. -/
def set_sampling_periods (old : Nat) (num : Int) : Int × Nat :=
  if 50 < num ∨ num < 5 then (-22, old) else (0, num.toNat)

/-- `min_online_cpus_set`: `param_set_int` writes the value first and its
return value (0 on a successful parse) is returned; afterwards an
out-of-range value is CLAMPED to 1 ("at least 1 core must run even if set
value is out of range").  `cpus` is `CPUS_AVAILABLE`. -/
def min_online_cpus_set (old : Nat) (num : Int) (cpus : Nat) : Int × Nat :=
  let v : Int := num
  let v : Int := if v < 1 ∨ (cpus : Int) < v then 1 else v
  (0, v.toNat)

/-- `max_online_cpus_set`: as `min_online_cpus_set` but clamping to
`CPUS_AVAILABLE`. -/
def max_online_cpus_set (old : Nat) (num : Int) (cpus : Nat) : Int × Nat :=
  let v : Int := num
  let v : Int := if v < 1 ∨ (cpus : Int) < v then (cpus : Int) else v
  (0, v.toNat)

/-- `hotplug_disable(flag)`: enabling clears `HOTPLUG_DISABLED` and
`HOTPLUG_PAUSED` and re-arms the decision work; disabling sets
`HOTPLUG_DISABLED` and `cancel_delayed_work_sync`s the offline, decision
and unpause delayed works (and nothing else). -/
def hotplug_disable (flag : Bool) (s : HState) : HState :=
  if s.flags.disabled ∧ flag = false then
    { s with flags := { s.flags with disabled := false, paused := false }
             pendingDecision := true }
  else if flag = true ∧ ¬s.flags.disabled then
    { s with flags := { s.flags with disabled := true }
             pendingOffline := false
             pendingDecision := false
             pendingUnpause := false }
  else s

/-- `hotplug_boostpulse()`: no-op when suspended, disabled or boost is
already active or `max_online_cpus <= online_cpus`; otherwise it sets
`BOOSTPULSE_ACTIVE` and, when fewer than two CPUs are online, cancels the
pending offline, pauses, and schedules online-single plus a 1 s unpause;
with two or more CPUs online it only acts if an offline is pending, in
which case it cancels it, pauses, and schedules a 2 s unpause plus the
decision work. -/
def hotplug_boostpulse (online_cpus max_online_cpus : Nat) (s : HState) : HState :=
  if s.flags.suspend = true ∨ s.flags.disabled = true then s
  else if ¬s.flags.boost = true ∧ online_cpus < max_online_cpus then
    if online_cpus < 2 then
      { s with flags := { s.flags with boost := true, paused := true }
               pendingOffline := false
               pendingOnlineSingle := true
               pendingUnpause := true }
    else if s.pendingOffline then
      { s with flags := { s.flags with boost := true, paused := true }
               pendingOffline := false
               pendingUnpause := true
               pendingDecision := true }
    else
      { s with flags := { s.flags with boost := true } }
  else s

/-- Inputs the decision function reads at the start of a cycle:
`num_online_cpus()`, `CPUS_AVAILABLE`, the computed `avg_running` and the
tunables. -/
structure DecisionInput where
  online_cpus : Nat
  available_cpus : Nat
  avg_running : Nat
  enable_all_load_threshold : Nat
  enable_load_threshold : Nat
  disable_load_threshold : Nat
  min_online_cpus : Nat
  max_online_cpus : Nat
deriving DecidableEq, Repr

/-- Guard of the online-all branch of `hotplug_decision_work_fn`. -/
def allOnCond (inp : DecisionInput) : Prop :=
  inp.enable_all_load_threshold ≤ inp.avg_running ∧
    inp.online_cpus < inp.available_cpus ∧ inp.online_cpus < inp.max_online_cpus

/-- Guard of the online-single branch (`enable_load` is the threshold
pre-scaled by `online_cpus`). -/
def singleOnCond (inp : DecisionInput) : Prop :=
  inp.enable_load_threshold * inp.online_cpus ≤ inp.avg_running ∧
    inp.online_cpus < inp.available_cpus ∧ inp.online_cpus < inp.max_online_cpus

/-- Guard of the offline-single branch. -/
def singleOffCond (inp : DecisionInput) : Prop :=
  inp.avg_running ≤ inp.disable_load_threshold * inp.online_cpus ∧
    inp.min_online_cpus < inp.online_cpus

instance (inp : DecisionInput) : Decidable (allOnCond inp) := by
  unfold allOnCond; infer_instance

instance (inp : DecisionInput) : Decidable (singleOnCond inp) := by
  unfold singleOnCond; infer_instance

instance (inp : DecisionInput) : Decidable (singleOffCond inp) := by
  unfold singleOffCond; infer_instance

/-- The flag/scheduling effect of the decision part of
`hotplug_decision_work_fn` (the averaging part is `avg_running` above):
online-all pauses, cancels a pending offline and queues online-all-work
(returning without re-arming — the online-all work re-arms); a paused
cycle just re-arms; online-single cancels a pending offline and queues
online-single-work; offline-single queues the delayed offline if none is
pending and clears `BOOSTPULSE_ACTIVE`, then falls through to re-arm; all
remaining paths (including `HOTPLUG_DISABLED`) just re-arm the sampler. -/
def hotplug_decision (inp : DecisionInput) (s : HState) : HState :=
  if ¬s.flags.disabled = true then
    if allOnCond inp then
      { s with flags := { s.flags with paused := true }
               pendingOffline := false
               pendingOnlineAll := true }
    else if s.flags.paused = true then
      { s with pendingDecision := true }
    else if singleOnCond inp then
      { s with pendingOffline := false
               pendingOnlineSingle := true }
    else if singleOffCond inp then
      { s with flags := { s.flags with boost := false }
               pendingOffline := true
               pendingDecision := true }
    else
      { s with pendingDecision := true }
  else
    { s with pendingDecision := true }

/-- The offline-single branch is the one cycle that clears
`BOOSTPULSE_ACTIVE`: it is taken when not disabled, the online-all guard
fails, not paused, the online-single guard fails and the offline guard
holds. -/
def singleOffTaken (inp : DecisionInput) (s : HState) : Prop :=
  ¬s.flags.disabled = true ∧ ¬allOnCond inp ∧ ¬s.flags.paused = true ∧
    ¬singleOnCond inp ∧ singleOffCond inp

instance (inp : DecisionInput) (s : HState) : Decidable (singleOffTaken inp s) := by
  unfold singleOffTaken; infer_instance

/-- `hotplug_unpause_work_fn`: clears `HOTPLUG_PAUSED` only. -/
def hotplug_unpause (s : HState) : HState :=
  { s with flags := { s.flags with paused := false }, pendingUnpause := false }

end AutoHotplug

namespace ThermalB

/-- Constants of drivers/thermal/msm_thermal.c. -/
def SHUTDOWN_TEMP : Nat := 80

/-- Polling slows below this temperature. -/
def COOL_TEMP : Nat := 40

/-- Upper bound a user may set `throttle_temp` to. -/
def MAX_THROTTLE_TEMP : Nat := 74

/-- The `MSM_CPUFREQ_NO_LIMIT` sentinel (UINT_MAX). -/
def MSM_CPUFREQ_NO_LIMIT : Nat := 4294967295

/-- `msm_thermal_data` fields read by `check_temp`, plus the platform
frequency table (`table[i].frequency` for `i` below the
`CPUFREQ_TABLE_END` marker), fixed per boot. -/
structure Config where
  poll_ms : Nat
  temp_hysteresis_degC : Nat
  freq_step : Nat
  table : List Nat
deriving DecidableEq, Repr

/-- Mutable state of the limiter: the module globals plus the
function-static `limit_init`.  `resolve_attempts` counts calls of
`msm_thermal_get_freq_table` (for stating the retry behaviour);
`poweroff_count` counts invocations of `orderly_poweroff`;
`rescheduled`/`next_delay` record whether (and with which delay in ms)
this run of `check_temp` re-armed itself. -/
structure State where
  enabled : Bool
  limit_init : Bool
  resolve_attempts : Nat
  limit_idx : Int
  limit_idx_low : Int
  limit_idx_high : Int
  throttle_temp : Nat
  limited_max_freq : Nat
  poweroff_count : Nat
  rescheduled : Bool
  next_delay : Option Nat
deriving DecidableEq, Repr

/-- The `reschedule:` tail of `check_temp`: when `enabled`, re-arm at
`poll_ms - HOT_TEMP_OFFSET_MS` when hot and near the limit, at `poll_ms`
when merely hot, and at `poll_ms + COOL_TEMP_OFFSET_MS` when cool. -/
def reschedule (cfg : Config) (temp : Nat) (near_limit : Bool) (s : State) : State :=
  if s.enabled = true then
    { s with rescheduled := true
             next_delay := some (if COOL_TEMP < temp then
                                   if near_limit then usub32 cfg.poll_ms 250
                                   else cfg.poll_ms
                                 else cfg.poll_ms + 250) }
  else { s with rescheduled := false, next_delay := none }

/-- The `setmaxfreq:` label: apply `max_freq` to every CPU (modelled as
one global ceiling, since a per-core failure only logs) and fall through
to `reschedule:`. -/
def setmaxfreq (cfg : Config) (temp : Nat) (near_limit : Bool) (max_freq : Nat)
    (s : State) : State :=
  reschedule cfg temp near_limit { s with limited_max_freq := max_freq }

/-- The `if (max_freq == limited_max_freq) goto reschedule` check that
the non-shutdown paths pass through before `setmaxfreq:`. -/
def applyOrSkip (cfg : Config) (temp : Nat) (near_limit : Bool) (max_freq : Nat)
    (s : State) : State :=
  if max_freq = s.limited_max_freq then reschedule cfg temp near_limit s
  else setmaxfreq cfg temp near_limit max_freq s

/-- `near_limit` as computed in `check_temp`:
`temp > throttle_temp - temp_hysteresis_degC`, the subtraction performed
in unsigned 32-bit arithmetic. -/
def near_limitB (cfg : Config) (s : State) (temp : Nat) : Bool :=
  decide (usub32 s.throttle_temp cfg.temp_hysteresis_degC < temp)

/-- The band logic of `check_temp` after the sensor read succeeded and
`limit_init` holds: shutdown band (`orderly_poweroff`, ceiling from the
CURRENT `limit_idx`, `enabled = 0`, direct `goto setmaxfreq`), throttle
band (step `limit_idx` down by `freq_step`, clamped up to
`limit_idx_low`), recovery band (step up by `freq_step`; reaching
`limit_idx_high` applies `MSM_CPUFREQ_NO_LIMIT`), and the warning band /
remaining temperatures, which leave `max_freq` at `limited_max_freq` and
therefore skip the apply. -/
def check_throttle (cfg : Config) (temp : Nat) (s : State) : State :=
  if SHUTDOWN_TEMP ≤ temp then
    setmaxfreq cfg temp false (cfg.table.getD s.limit_idx.toNat 0)
      { s with poweroff_count := s.poweroff_count + 1, enabled := false }
  else if s.throttle_temp ≤ temp then
    if s.limit_idx = s.limit_idx_low then
      reschedule cfg temp (near_limitB cfg s temp) s
    else if isub32 s.limit_idx cfg.freq_step < s.limit_idx_low then
      applyOrSkip cfg temp (near_limitB cfg s temp)
        (cfg.table.getD s.limit_idx_low.toNat 0)
        { s with limit_idx := s.limit_idx_low }
    else
      applyOrSkip cfg temp (near_limitB cfg s temp)
        (cfg.table.getD (isub32 s.limit_idx cfg.freq_step).toNat 0)
        { s with limit_idx := isub32 s.limit_idx cfg.freq_step }
  else if temp < usub32 s.throttle_temp cfg.temp_hysteresis_degC then
    if s.limit_idx = s.limit_idx_high then
      reschedule cfg temp (near_limitB cfg s temp) s
    else if s.limit_idx_high ≤ iadd32 s.limit_idx cfg.freq_step then
      applyOrSkip cfg temp (near_limitB cfg s temp) MSM_CPUFREQ_NO_LIMIT
        { s with limit_idx := s.limit_idx_high }
    else
      applyOrSkip cfg temp (near_limitB cfg s temp)
        (cfg.table.getD (iadd32 s.limit_idx cfg.freq_step).toNat 0)
        { s with limit_idx := iadd32 s.limit_idx cfg.freq_step }
  else
    applyOrSkip cfg temp (near_limitB cfg s temp) s.limited_max_freq s

/-- One invocation of `check_temp`: `tempRead` is the tsens reading
(`none` = read failure, which skips straight to `reschedule:` with
`temp = 0`); `tableAvail` tells whether `cpufreq_frequency_get_table`
returns a table this cycle.  When `limit_init` is still clear the table is
(re)resolved: on failure the cycle only reschedules, on success
`limit_idx_low = 0` and `limit_idx_high = limit_idx = len - 1`. -/
def check_temp (cfg : Config) (tempRead : Option Nat) (tableAvail : Bool)
    (s : State) : State :=
  match tempRead with
  | none => reschedule cfg 0 false s
  | some temp =>
    if s.limit_init = true then check_throttle cfg temp s
    else if tableAvail then
      check_throttle cfg temp
        { s with resolve_attempts := s.resolve_attempts + 1
                 limit_init := true
                 limit_idx_low := 0
                 limit_idx := (cfg.table.length : Int) - 1
                 limit_idx_high := (cfg.table.length : Int) - 1 }
    else
      reschedule cfg temp false
        { s with resolve_attempts := s.resolve_attempts + 1 }

/-- Iterated sampling: one `check_temp` per element of `temps`, with the
frequency table available throughout. -/
def run (cfg : Config) (temps : List (Option Nat)) (s : State) : State :=
  temps.foldl (fun st t => check_temp cfg t true st) s

/-- `set_throttle_temp`: reject outside `COOL_TEMP..MAX_THROTTLE_TEMP`
(40..74), else write. -/
def set_throttle_temp (old : Nat) (num : Int) : Int × Nat :=
  if 74 < num ∨ num < 40 then (-22, old) else (0, num.toNat)

end ThermalB

namespace ThermalA

/-- Constants of the thermal variant appended to auto_hotplug.c. -/
def MAX_THROTTLE_TEMP : Nat := 80

/-- Polling slows below this temperature. -/
def COOL_TEMP : Nat := 45

/-- Default (and post-table-read) value of `min_freq_index`. -/
def DEFAULT_MIN_FREQ_INDEX : Nat := 7

/-- The `MSM_CPUFREQ_NO_LIMIT` sentinel (UINT_MAX). -/
def MSM_CPUFREQ_NO_LIMIT : Nat := 4294967295

/-- Configuration fields read by this variant's `check_temp`. -/
structure Config where
  poll_ms : Nat
  temp_hysteresis_degC : Nat
  freq_step : Nat
  table : List Nat
deriving DecidableEq, Repr

/-- Mutable state of this variant: here `limit_idx`, `min_freq_index` and
`limit_idx_high` are C `unsigned int`s. -/
structure State where
  enabled : Bool
  limit_init : Bool
  limit_idx : Nat
  min_freq_index : Nat
  limit_idx_high : Nat
  throttle_on : Bool
  throttle_temp : Nat
  limited_max_freq : Nat
  rescheduled : Bool
  next_delay : Option Nat
deriving DecidableEq, Repr

/-- The `reschedule:` tail (COOL_TEMP here is 45, `poll_faster` plays the
role Variant B's `near_limit` plays). -/
def reschedule (cfg : Config) (temp : Nat) (poll_faster : Bool) (s : State) : State :=
  if s.enabled = true then
    { s with rescheduled := true
             next_delay := some (if COOL_TEMP < temp then
                                   if poll_faster then usub32 cfg.poll_ms 250
                                   else cfg.poll_ms
                                 else cfg.poll_ms + 250) }
  else { s with rescheduled := false, next_delay := none }

/-- The `setmaxfreq:` label (no equality short-circuit in this variant:
every band jumps here directly). -/
def setmaxfreq (cfg : Config) (temp : Nat) (poll_faster : Bool) (max_freq : Nat)
    (s : State) : State :=
  reschedule cfg temp poll_faster { s with limited_max_freq := max_freq }

/-- Band logic of the appended variant after read success and
`limit_init`: max-throttle band jumps straight to `min_freq_index`; the
cool band (`temp < throttle_temp - hysteresis`, unsigned subtraction)
jumps back to `limit_idx_high`; the throttle band steps down by
`freq_step` in unsigned arithmetic, clamped up to `min_freq_index`; the
warning band jumps to `limit_idx_high` but polls faster. -/
def check_throttle (cfg : Config) (temp : Nat) (s : State) : State :=
  if MAX_THROTTLE_TEMP ≤ temp then
    setmaxfreq cfg temp true (cfg.table.getD s.min_freq_index 0)
      { s with limit_idx := s.min_freq_index, throttle_on := true }
  else if temp < usub32 s.throttle_temp cfg.temp_hysteresis_degC then
    if s.limit_idx = s.limit_idx_high then
      reschedule cfg temp false { s with throttle_on := false }
    else
      setmaxfreq cfg temp false (cfg.table.getD s.limit_idx_high 0)
        { s with limit_idx := s.limit_idx_high, throttle_on := false }
  else if s.throttle_temp ≤ temp then
    if s.limit_idx = s.min_freq_index then
      reschedule cfg temp true s
    else if usub32 s.limit_idx cfg.freq_step < s.min_freq_index then
      setmaxfreq cfg temp true (cfg.table.getD s.min_freq_index 0)
        { s with limit_idx := s.min_freq_index, throttle_on := true }
    else
      setmaxfreq cfg temp true (cfg.table.getD (usub32 s.limit_idx cfg.freq_step) 0)
        { s with limit_idx := usub32 s.limit_idx cfg.freq_step, throttle_on := true }
  else if usub32 s.throttle_temp cfg.temp_hysteresis_degC ≤ temp then
    if s.limit_idx = s.limit_idx_high then
      reschedule cfg temp true { s with throttle_on := false }
    else
      setmaxfreq cfg temp true (cfg.table.getD s.limit_idx_high 0)
        { s with limit_idx := s.limit_idx_high, throttle_on := false }
  else
    setmaxfreq cfg temp false s.limited_max_freq s

/-- One invocation of this variant's `check_temp`.  Resolution on success
resets `min_freq_index` to `DEFAULT_MIN_FREQ_INDEX` and sets
`limit_idx_high = limit_idx = len - 1`. -/
def check_temp (cfg : Config) (tempRead : Option Nat) (tableAvail : Bool)
    (s : State) : State :=
  match tempRead with
  | none => reschedule cfg 0 false s
  | some temp =>
    if s.limit_init = true then check_throttle cfg temp s
    else if tableAvail then
      check_throttle cfg temp
        { s with limit_init := true
                 min_freq_index := DEFAULT_MIN_FREQ_INDEX
                 limit_idx := cfg.table.length - 1
                 limit_idx_high := cfg.table.length - 1 }
    else
      reschedule cfg temp false s

/-- Iterated sampling for this variant. -/
def run (cfg : Config) (temps : List (Option Nat)) (s : State) : State :=
  temps.foldl (fun st t => check_temp cfg t true st) s

/-- This variant's `set_throttle_temp`: reject outside 45..80. -/
def set_throttle_temp (old : Nat) (num : Int) : Int × Nat :=
  if 80 < num ∨ num < 45 then (-22, old) else (0, num.toNat)

/-- `set_min_freq_index`: reject outside 4..8. -/
def set_min_freq_index (old : Nat) (num : Int) : Int × Nat :=
  if 8 < num ∨ num < 4 then (-22, old) else (0, num.toNat)

end ThermalA

/-- Example configuration for the shutdown-band variant: 1000 ms polling,
4 °C hysteresis, step 1, a five-entry ascending frequency table. -/
def exCfgB : ThermalB.Config :=
  { poll_ms := 1000, temp_hysteresis_degC := 4, freq_step := 1
    table := [100, 200, 300, 400, 500] }

/-- Example post-initialisation state for the shutdown-band variant:
table resolved, index at the top of the range, no ceiling applied. -/
def exStateB : ThermalB.State :=
  { enabled := true, limit_init := true, resolve_attempts := 1
    limit_idx := 4, limit_idx_low := 0, limit_idx_high := 4
    throttle_temp := 64, limited_max_freq := ThermalB.MSM_CPUFREQ_NO_LIMIT
    poweroff_count := 0, rescheduled := false, next_delay := none }

/-- Example pre-initialisation state (frequency table not yet resolved). -/
def exStateB0 : ThermalB.State :=
  { enabled := true, limit_init := false, resolve_attempts := 0
    limit_idx := 0, limit_idx_low := 0, limit_idx_high := 0
    throttle_temp := 64, limited_max_freq := ThermalB.MSM_CPUFREQ_NO_LIMIT
    poweroff_count := 0, rescheduled := false, next_delay := none }

/-- Example configuration for the appended variant with `freq_step = 15`
(the device-tree `qcom,freq-step` value is not validated anywhere) and a
ten-entry table. -/
def exCfgA : ThermalA.Config :=
  { poll_ms := 1000, temp_hysteresis_degC := 5, freq_step := 15
    table := [100, 200, 300, 400, 500, 600, 700, 800, 900, 1000] }

/-- The same configuration with the benign `freq_step = 1`. -/
def exCfgA1 : ThermalA.Config :=
  { poll_ms := 1000, temp_hysteresis_degC := 5, freq_step := 1
    table := [100, 200, 300, 400, 500, 600, 700, 800, 900, 1000] }

/-- Example post-initialisation state for the appended variant. -/
def exStateA : ThermalA.State :=
  { enabled := true, limit_init := true, limit_idx := 9
    min_freq_index := 7, limit_idx_high := 9, throttle_on := false
    throttle_temp := 70, limited_max_freq := ThermalA.MSM_CPUFREQ_NO_LIMIT
    rescheduled := false, next_delay := none }

/-- Example hotplug state: all flags clear, an online-all work item queued
and nothing else pending. -/
def exHStateOnlineAll : AutoHotplug.HState :=
  { flags := { disabled := false, paused := false, boost := false, suspend := false }
    pendingDecision := false, pendingOffline := false, pendingUnpause := false
    pendingOnlineAll := true, pendingOnlineSingle := false, pendingOfflineAll := false }

/-- Example hotplug state: all flags clear, nothing pending. -/
def exHStateIdle : AutoHotplug.HState :=
  { flags := { disabled := false, paused := false, boost := false, suspend := false }
    pendingDecision := false, pendingOffline := false, pendingUnpause := false
    pendingOnlineAll := false, pendingOnlineSingle := false, pendingOfflineAll := false }

/-- Example decision-cycle input: 2 of 4 CPUs online, a mid-band average
that triggers no branch, default thresholds. -/
def exInputIdle : AutoHotplug.DecisionInput :=
  { online_cpus := 2, available_cpus := 4, avg_running := 300
    enable_all_load_threshold := 400, enable_load_threshold := 200
    disable_load_threshold := 80, min_online_cpus := 1, max_online_cpus := 4 }

/-- Example decision-cycle input whose average falls in the offline band
(`avg <= disable_load_threshold * online_cpus`). -/
def exInputOff : AutoHotplug.DecisionInput :=
  { online_cpus := 2, available_cpus := 4, avg_running := 100
    enable_all_load_threshold := 400, enable_load_threshold := 200
    disable_load_threshold := 80, min_online_cpus := 1, max_online_cpus := 4 }

/-! ## Arithmetic facts about the 32-bit wrap helpers -/

theorem usub32_eq_sub (a b : Nat) (hba : b ≤ a) (ha : a < U32) :
    usub32 a b = a - b := by
  unfold usub32 U32 at *
  have hb : b % 4294967296 = b := Nat.mod_eq_of_lt (by omega)
  have ha' : a % 4294967296 = a := Nat.mod_eq_of_lt ha
  rw [hb, ha']
  omega

theorem isub32_eq_sub (a : Int) (b : Nat) (h0 : 0 ≤ a) (ha : a < 2147483648)
    (hb : (b : Int) < 2147483648) : isub32 a b = a - b := by
  unfold isub32 toInt32 uofInt U32 at *
  split_ifs with h <;> omega

theorem iadd32_eq_add (a : Int) (b : Nat) (h0 : 0 ≤ a)
    (hab : a + (b : Int) < 2147483648) : iadd32 a b = a + b := by
  unfold iadd32 toInt32 uofInt U32 at *
  split_ifs with h <;> omega

/-! ## Field-preservation lemmas for the Variant B helpers -/

@[simp] theorem rB_limit_init (cfg : ThermalB.Config) (t : Nat) (n : Bool)
    (s : ThermalB.State) : (ThermalB.reschedule cfg t n s).limit_init = s.limit_init := by
  unfold ThermalB.reschedule; split_ifs <;> rfl

@[simp] theorem rB_attempts (cfg : ThermalB.Config) (t : Nat) (n : Bool)
    (s : ThermalB.State) :
    (ThermalB.reschedule cfg t n s).resolve_attempts = s.resolve_attempts := by
  unfold ThermalB.reschedule; split_ifs <;> rfl

@[simp] theorem rB_idx (cfg : ThermalB.Config) (t : Nat) (n : Bool)
    (s : ThermalB.State) : (ThermalB.reschedule cfg t n s).limit_idx = s.limit_idx := by
  unfold ThermalB.reschedule; split_ifs <;> rfl

@[simp] theorem rB_low (cfg : ThermalB.Config) (t : Nat) (n : Bool)
    (s : ThermalB.State) :
    (ThermalB.reschedule cfg t n s).limit_idx_low = s.limit_idx_low := by
  unfold ThermalB.reschedule; split_ifs <;> rfl

@[simp] theorem rB_high (cfg : ThermalB.Config) (t : Nat) (n : Bool)
    (s : ThermalB.State) :
    (ThermalB.reschedule cfg t n s).limit_idx_high = s.limit_idx_high := by
  unfold ThermalB.reschedule; split_ifs <;> rfl

@[simp] theorem rB_tt (cfg : ThermalB.Config) (t : Nat) (n : Bool)
    (s : ThermalB.State) :
    (ThermalB.reschedule cfg t n s).throttle_temp = s.throttle_temp := by
  unfold ThermalB.reschedule; split_ifs <;> rfl

@[simp] theorem rB_poweroff (cfg : ThermalB.Config) (t : Nat) (n : Bool)
    (s : ThermalB.State) :
    (ThermalB.reschedule cfg t n s).poweroff_count = s.poweroff_count := by
  unfold ThermalB.reschedule; split_ifs <;> rfl

@[simp] theorem rB_enabled (cfg : ThermalB.Config) (t : Nat) (n : Bool)
    (s : ThermalB.State) : (ThermalB.reschedule cfg t n s).enabled = s.enabled := by
  unfold ThermalB.reschedule; split_ifs <;> rfl

@[simp] theorem rB_limited (cfg : ThermalB.Config) (t : Nat) (n : Bool)
    (s : ThermalB.State) :
    (ThermalB.reschedule cfg t n s).limited_max_freq = s.limited_max_freq := by
  unfold ThermalB.reschedule; split_ifs <;> rfl

@[simp] theorem rB_rescheduled (cfg : ThermalB.Config) (t : Nat) (n : Bool)
    (s : ThermalB.State) : (ThermalB.reschedule cfg t n s).rescheduled = s.enabled := by
  unfold ThermalB.reschedule
  split_ifs with h <;> simp_all

@[simp] theorem sB_limit_init (cfg : ThermalB.Config) (t : Nat) (n : Bool) (f : Nat)
    (s : ThermalB.State) : (ThermalB.setmaxfreq cfg t n f s).limit_init = s.limit_init := by
  unfold ThermalB.setmaxfreq; simp

@[simp] theorem sB_attempts (cfg : ThermalB.Config) (t : Nat) (n : Bool) (f : Nat)
    (s : ThermalB.State) :
    (ThermalB.setmaxfreq cfg t n f s).resolve_attempts = s.resolve_attempts := by
  unfold ThermalB.setmaxfreq; simp

@[simp] theorem sB_idx (cfg : ThermalB.Config) (t : Nat) (n : Bool) (f : Nat)
    (s : ThermalB.State) : (ThermalB.setmaxfreq cfg t n f s).limit_idx = s.limit_idx := by
  unfold ThermalB.setmaxfreq; simp

@[simp] theorem sB_low (cfg : ThermalB.Config) (t : Nat) (n : Bool) (f : Nat)
    (s : ThermalB.State) :
    (ThermalB.setmaxfreq cfg t n f s).limit_idx_low = s.limit_idx_low := by
  unfold ThermalB.setmaxfreq; simp

@[simp] theorem sB_high (cfg : ThermalB.Config) (t : Nat) (n : Bool) (f : Nat)
    (s : ThermalB.State) :
    (ThermalB.setmaxfreq cfg t n f s).limit_idx_high = s.limit_idx_high := by
  unfold ThermalB.setmaxfreq; simp

@[simp] theorem sB_tt (cfg : ThermalB.Config) (t : Nat) (n : Bool) (f : Nat)
    (s : ThermalB.State) :
    (ThermalB.setmaxfreq cfg t n f s).throttle_temp = s.throttle_temp := by
  unfold ThermalB.setmaxfreq; simp

@[simp] theorem sB_poweroff (cfg : ThermalB.Config) (t : Nat) (n : Bool) (f : Nat)
    (s : ThermalB.State) :
    (ThermalB.setmaxfreq cfg t n f s).poweroff_count = s.poweroff_count := by
  unfold ThermalB.setmaxfreq; simp

@[simp] theorem sB_enabled (cfg : ThermalB.Config) (t : Nat) (n : Bool) (f : Nat)
    (s : ThermalB.State) : (ThermalB.setmaxfreq cfg t n f s).enabled = s.enabled := by
  unfold ThermalB.setmaxfreq; simp

@[simp] theorem sB_limited (cfg : ThermalB.Config) (t : Nat) (n : Bool) (f : Nat)
    (s : ThermalB.State) : (ThermalB.setmaxfreq cfg t n f s).limited_max_freq = f := by
  unfold ThermalB.setmaxfreq; simp

@[simp] theorem sB_rescheduled (cfg : ThermalB.Config) (t : Nat) (n : Bool) (f : Nat)
    (s : ThermalB.State) : (ThermalB.setmaxfreq cfg t n f s).rescheduled = s.enabled := by
  unfold ThermalB.setmaxfreq; simp

@[simp] theorem aB_limit_init (cfg : ThermalB.Config) (t : Nat) (n : Bool) (f : Nat)
    (s : ThermalB.State) : (ThermalB.applyOrSkip cfg t n f s).limit_init = s.limit_init := by
  unfold ThermalB.applyOrSkip; split_ifs <;> simp

@[simp] theorem aB_attempts (cfg : ThermalB.Config) (t : Nat) (n : Bool) (f : Nat)
    (s : ThermalB.State) :
    (ThermalB.applyOrSkip cfg t n f s).resolve_attempts = s.resolve_attempts := by
  unfold ThermalB.applyOrSkip; split_ifs <;> simp

@[simp] theorem aB_idx (cfg : ThermalB.Config) (t : Nat) (n : Bool) (f : Nat)
    (s : ThermalB.State) : (ThermalB.applyOrSkip cfg t n f s).limit_idx = s.limit_idx := by
  unfold ThermalB.applyOrSkip; split_ifs <;> simp

@[simp] theorem aB_low (cfg : ThermalB.Config) (t : Nat) (n : Bool) (f : Nat)
    (s : ThermalB.State) :
    (ThermalB.applyOrSkip cfg t n f s).limit_idx_low = s.limit_idx_low := by
  unfold ThermalB.applyOrSkip; split_ifs <;> simp

@[simp] theorem aB_high (cfg : ThermalB.Config) (t : Nat) (n : Bool) (f : Nat)
    (s : ThermalB.State) :
    (ThermalB.applyOrSkip cfg t n f s).limit_idx_high = s.limit_idx_high := by
  unfold ThermalB.applyOrSkip; split_ifs <;> simp

@[simp] theorem aB_tt (cfg : ThermalB.Config) (t : Nat) (n : Bool) (f : Nat)
    (s : ThermalB.State) :
    (ThermalB.applyOrSkip cfg t n f s).throttle_temp = s.throttle_temp := by
  unfold ThermalB.applyOrSkip; split_ifs <;> simp

@[simp] theorem aB_poweroff (cfg : ThermalB.Config) (t : Nat) (n : Bool) (f : Nat)
    (s : ThermalB.State) :
    (ThermalB.applyOrSkip cfg t n f s).poweroff_count = s.poweroff_count := by
  unfold ThermalB.applyOrSkip; split_ifs <;> simp

@[simp] theorem aB_enabled (cfg : ThermalB.Config) (t : Nat) (n : Bool) (f : Nat)
    (s : ThermalB.State) : (ThermalB.applyOrSkip cfg t n f s).enabled = s.enabled := by
  unfold ThermalB.applyOrSkip; split_ifs <;> simp

@[simp] theorem aB_rescheduled (cfg : ThermalB.Config) (t : Nat) (n : Bool) (f : Nat)
    (s : ThermalB.State) : (ThermalB.applyOrSkip cfg t n f s).rescheduled = s.enabled := by
  unfold ThermalB.applyOrSkip; split_ifs <;> simp

/-! ## Single-step facts about Variant B's `check_temp` -/

theorem checkThrottleB_step (cfg : ThermalB.Config) (temp : Nat) (s : ThermalB.State)
    (h4 : 0 ≤ s.limit_idx) (h5 : s.limit_idx ≤ s.limit_idx_high)
    (hH : s.limit_idx_high < 2147483648)
    (hstep : (cfg.freq_step : Int) + s.limit_idx_high < 2147483648) :
    (ThermalB.check_throttle cfg temp s).limit_init = s.limit_init ∧
    (ThermalB.check_throttle cfg temp s).limit_idx_low = s.limit_idx_low ∧
    (ThermalB.check_throttle cfg temp s).limit_idx_high = s.limit_idx_high ∧
    (ThermalB.check_throttle cfg temp s).throttle_temp = s.throttle_temp ∧
    (s.limit_idx_low = 0 →
      0 ≤ (ThermalB.check_throttle cfg temp s).limit_idx ∧
      (ThermalB.check_throttle cfg temp s).limit_idx ≤ s.limit_idx_high) := by
  have hsub : isub32 s.limit_idx cfg.freq_step = s.limit_idx - (cfg.freq_step : Int) :=
    isub32_eq_sub _ _ h4 (by omega) (by omega)
  have hadd : iadd32 s.limit_idx cfg.freq_step = s.limit_idx + (cfg.freq_step : Int) :=
    iadd32_eq_add _ _ h4 (by omega)
  unfold ThermalB.check_throttle
  refine ⟨?_, ?_, ?_, ?_, ?_⟩
  · split_ifs <;> simp
  · split_ifs <;> simp
  · split_ifs <;> simp
  · split_ifs <;> simp
  · intro hlow
    split_ifs <;> simp <;> omega

theorem checkTempB_step (cfg : ThermalB.Config) (t : Option Nat) (b : Bool)
    (s : ThermalB.State) (h1 : s.limit_init = true) (h2 : s.limit_idx_low = 0)
    (h4 : 0 ≤ s.limit_idx) (h5 : s.limit_idx ≤ s.limit_idx_high)
    (hH : s.limit_idx_high < 2147483648)
    (hstep : (cfg.freq_step : Int) + s.limit_idx_high < 2147483648) :
    (ThermalB.check_temp cfg t b s).limit_init = true ∧
    (ThermalB.check_temp cfg t b s).limit_idx_low = 0 ∧
    (ThermalB.check_temp cfg t b s).limit_idx_high = s.limit_idx_high ∧
    (ThermalB.check_temp cfg t b s).throttle_temp = s.throttle_temp ∧
    0 ≤ (ThermalB.check_temp cfg t b s).limit_idx ∧
    (ThermalB.check_temp cfg t b s).limit_idx ≤ s.limit_idx_high := by
  cases t with
  | none => simp [ThermalB.check_temp, h1, h2, h4, h5]
  | some temp =>
    have h := checkThrottleB_step cfg temp s h4 h5 hH hstep
    simp only [ThermalB.check_temp, h1, if_true]
    exact ⟨by rw [h.1, h1], by rw [h.2.1, h2], h.2.2.1, h.2.2.2.1,
      (h.2.2.2.2 h2).1, (h.2.2.2.2 h2).2⟩

theorem runB_range (cfg : ThermalB.Config) (H : Int) (hH : H < 2147483648)
    (hstep : (cfg.freq_step : Int) + H < 2147483648) :
    ∀ (temps : List (Option Nat)) (s : ThermalB.State),
      s.limit_init = true → s.limit_idx_low = 0 → s.limit_idx_high = H →
      0 ≤ s.limit_idx → s.limit_idx ≤ H →
      (ThermalB.run cfg temps s).limit_init = true ∧
      (ThermalB.run cfg temps s).limit_idx_low = 0 ∧
      (ThermalB.run cfg temps s).limit_idx_high = H ∧
      (ThermalB.run cfg temps s).throttle_temp = s.throttle_temp ∧
      0 ≤ (ThermalB.run cfg temps s).limit_idx ∧
      (ThermalB.run cfg temps s).limit_idx ≤ H := by
  intro temps
  induction temps with
  | nil => intro s h1 h2 h3 h4 h5; exact ⟨h1, h2, h3, rfl, h4, h5⟩
  | cons t ts ih =>
    intro s h1 h2 h3 h4 h5
    have hs := checkTempB_step cfg t true s h1 h2 h4 (by rw [h3]; exact h5)
      (by rw [h3]; exact hH) (by rw [h3]; exact hstep)
    have hrun : ThermalB.run cfg (t :: ts) s =
        ThermalB.run cfg ts (ThermalB.check_temp cfg t true s) := rfl
    rw [hrun]
    have := ih (ThermalB.check_temp cfg t true s) hs.1 hs.2.1
      (by rw [hs.2.2.1, h3]) hs.2.2.2.2.1 (by rw [← h3]; exact hs.2.2.2.2.2)
    exact ⟨this.1, this.2.1, this.2.2.1,
      by rw [this.2.2.2.1, hs.2.2.2.1], this.2.2.2.2.1, this.2.2.2.2.2⟩

theorem checkThrottleB_no_increase (cfg : ThermalB.Config) (temp : Nat)
    (s : ThermalB.State)
    (h2 : s.limit_idx_low = 0) (h4 : 0 ≤ s.limit_idx) (h5 : s.limit_idx ≤ s.limit_idx_high)
    (hH : s.limit_idx_high < 2147483648)
    (hstep : (cfg.freq_step : Int) + s.limit_idx_high < 2147483648)
    (hhy : cfg.temp_hysteresis_degC ≤ s.throttle_temp)
    (htt : s.throttle_temp < U32)
    (ht : s.throttle_temp - cfg.temp_hysteresis_degC ≤ temp) :
    (ThermalB.check_throttle cfg temp s).limit_idx ≤ s.limit_idx := by
  have hsub : isub32 s.limit_idx cfg.freq_step = s.limit_idx - (cfg.freq_step : Int) :=
    isub32_eq_sub _ _ h4 (by omega) (by omega)
  have hu : usub32 s.throttle_temp cfg.temp_hysteresis_degC =
      s.throttle_temp - cfg.temp_hysteresis_degC := usub32_eq_sub _ _ hhy htt
  unfold ThermalB.check_throttle
  rw [hu]
  split_ifs <;> simp <;> omega

theorem runB_no_increase (cfg : ThermalB.Config) (H : Int) (T : Nat)
    (hH : H < 2147483648) (hstep : (cfg.freq_step : Int) + H < 2147483648)
    (hhy : cfg.temp_hysteresis_degC ≤ T) (htt : T < U32) :
    ∀ (temps : List Nat) (s : ThermalB.State),
      s.limit_init = true → s.limit_idx_low = 0 → s.limit_idx_high = H →
      s.throttle_temp = T → 0 ≤ s.limit_idx → s.limit_idx ≤ H →
      (∀ t ∈ temps, T - cfg.temp_hysteresis_degC ≤ t) →
      (ThermalB.run cfg (temps.map some) s).limit_idx ≤ s.limit_idx := by
  intro temps
  induction temps with
  | nil => intro s _ _ _ _ _ _ _; exact le_refl _
  | cons t ts ih =>
    intro s h1 h2 h3 hT h4 h5 hall
    have hs := checkTempB_step cfg (some t) true s h1 h2 h4 (by rw [h3]; exact h5)
      (by rw [h3]; exact hH) (by rw [h3]; exact hstep)
    have hone : (ThermalB.check_temp cfg (some t) true s).limit_idx ≤ s.limit_idx := by
      have := checkThrottleB_no_increase cfg t s h2 h4 (by rw [h3]; exact h5)
        (by rw [h3]; exact hH) (by rw [h3]; exact hstep) (by rw [hT]; exact hhy)
        (by rw [hT]; exact htt) (by rw [hT]; exact hall t (List.mem_cons_self t ts))
      simpa [ThermalB.check_temp, h1] using this
    have hrun : ThermalB.run cfg ((t :: ts).map some) s =
        ThermalB.run cfg (ts.map some) (ThermalB.check_temp cfg (some t) true s) := rfl
    rw [hrun]
    have hrec := ih (ThermalB.check_temp cfg (some t) true s) hs.1 hs.2.1
      (by rw [hs.2.2.1, h3]) (by rw [hs.2.2.2.1, hT]) hs.2.2.2.2.1
      (by rw [← h3]; exact hs.2.2.2.2.2) (fun x hx => hall x (List.mem_cons_of_mem t hx))
    exact le_trans hrec hone

/-! ## Field-preservation lemmas for the Variant A helpers -/

@[simp] theorem rA_limit_init (cfg : ThermalA.Config) (t : Nat) (p : Bool)
    (s : ThermalA.State) : (ThermalA.reschedule cfg t p s).limit_init = s.limit_init := by
  unfold ThermalA.reschedule; split_ifs <;> rfl

@[simp] theorem rA_idx (cfg : ThermalA.Config) (t : Nat) (p : Bool)
    (s : ThermalA.State) : (ThermalA.reschedule cfg t p s).limit_idx = s.limit_idx := by
  unfold ThermalA.reschedule; split_ifs <;> rfl

@[simp] theorem rA_min (cfg : ThermalA.Config) (t : Nat) (p : Bool)
    (s : ThermalA.State) :
    (ThermalA.reschedule cfg t p s).min_freq_index = s.min_freq_index := by
  unfold ThermalA.reschedule; split_ifs <;> rfl

@[simp] theorem rA_high (cfg : ThermalA.Config) (t : Nat) (p : Bool)
    (s : ThermalA.State) :
    (ThermalA.reschedule cfg t p s).limit_idx_high = s.limit_idx_high := by
  unfold ThermalA.reschedule; split_ifs <;> rfl

@[simp] theorem rA_tt (cfg : ThermalA.Config) (t : Nat) (p : Bool)
    (s : ThermalA.State) :
    (ThermalA.reschedule cfg t p s).throttle_temp = s.throttle_temp := by
  unfold ThermalA.reschedule; split_ifs <;> rfl

@[simp] theorem sA_limit_init (cfg : ThermalA.Config) (t : Nat) (p : Bool) (f : Nat)
    (s : ThermalA.State) : (ThermalA.setmaxfreq cfg t p f s).limit_init = s.limit_init := by
  unfold ThermalA.setmaxfreq; simp

@[simp] theorem sA_idx (cfg : ThermalA.Config) (t : Nat) (p : Bool) (f : Nat)
    (s : ThermalA.State) : (ThermalA.setmaxfreq cfg t p f s).limit_idx = s.limit_idx := by
  unfold ThermalA.setmaxfreq; simp

@[simp] theorem sA_min (cfg : ThermalA.Config) (t : Nat) (p : Bool) (f : Nat)
    (s : ThermalA.State) :
    (ThermalA.setmaxfreq cfg t p f s).min_freq_index = s.min_freq_index := by
  unfold ThermalA.setmaxfreq; simp

@[simp] theorem sA_high (cfg : ThermalA.Config) (t : Nat) (p : Bool) (f : Nat)
    (s : ThermalA.State) :
    (ThermalA.setmaxfreq cfg t p f s).limit_idx_high = s.limit_idx_high := by
  unfold ThermalA.setmaxfreq; simp

@[simp] theorem sA_tt (cfg : ThermalA.Config) (t : Nat) (p : Bool) (f : Nat)
    (s : ThermalA.State) :
    (ThermalA.setmaxfreq cfg t p f s).throttle_temp = s.throttle_temp := by
  unfold ThermalA.setmaxfreq; simp

/-! ## Single-step facts about Variant A's `check_temp` -/

theorem checkThrottleA_step (cfg : ThermalA.Config) (temp : Nat) (s : ThermalA.State)
    (h4 : s.min_freq_index ≤ s.limit_idx) (h5 : s.limit_idx ≤ s.limit_idx_high)
    (hH : s.limit_idx_high < U32) (hstep : cfg.freq_step ≤ s.min_freq_index) :
    (ThermalA.check_throttle cfg temp s).limit_init = s.limit_init ∧
    (ThermalA.check_throttle cfg temp s).min_freq_index = s.min_freq_index ∧
    (ThermalA.check_throttle cfg temp s).limit_idx_high = s.limit_idx_high ∧
    (ThermalA.check_throttle cfg temp s).throttle_temp = s.throttle_temp ∧
    s.min_freq_index ≤ (ThermalA.check_throttle cfg temp s).limit_idx ∧
    (ThermalA.check_throttle cfg temp s).limit_idx ≤ s.limit_idx_high := by
  have hsub : usub32 s.limit_idx cfg.freq_step = s.limit_idx - cfg.freq_step :=
    usub32_eq_sub _ _ (le_trans hstep h4) (lt_of_le_of_lt h5 hH)
  unfold ThermalA.check_throttle
  rw [hsub]
  refine ⟨?_, ?_, ?_, ?_, ?_⟩
  · split_ifs <;> simp
  · split_ifs <;> simp
  · split_ifs <;> simp
  · split_ifs <;> simp
  · split_ifs <;> simp <;> omega

theorem checkTempA_step (cfg : ThermalA.Config) (t : Option Nat) (b : Bool)
    (s : ThermalA.State) (h1 : s.limit_init = true)
    (h4 : s.min_freq_index ≤ s.limit_idx) (h5 : s.limit_idx ≤ s.limit_idx_high)
    (hH : s.limit_idx_high < U32) (hstep : cfg.freq_step ≤ s.min_freq_index) :
    (ThermalA.check_temp cfg t b s).limit_init = true ∧
    (ThermalA.check_temp cfg t b s).min_freq_index = s.min_freq_index ∧
    (ThermalA.check_temp cfg t b s).limit_idx_high = s.limit_idx_high ∧
    s.min_freq_index ≤ (ThermalA.check_temp cfg t b s).limit_idx ∧
    (ThermalA.check_temp cfg t b s).limit_idx ≤ s.limit_idx_high := by
  cases t with
  | none => simp [ThermalA.check_temp, h1, h4, h5]
  | some temp =>
    have h := checkThrottleA_step cfg temp s h4 h5 hH hstep
    simp only [ThermalA.check_temp, h1, if_true]
    exact ⟨by rw [h.1, h1], h.2.1, h.2.2.1, h.2.2.2.2.1, h.2.2.2.2.2⟩

theorem runA_range (cfg : ThermalA.Config) (M H : Nat) (hH : H < U32)
    (hstep : cfg.freq_step ≤ M) :
    ∀ (temps : List (Option Nat)) (s : ThermalA.State),
      s.limit_init = true → s.min_freq_index = M → s.limit_idx_high = H →
      M ≤ s.limit_idx → s.limit_idx ≤ H →
      (ThermalA.run cfg temps s).limit_init = true ∧
      (ThermalA.run cfg temps s).min_freq_index = M ∧
      (ThermalA.run cfg temps s).limit_idx_high = H ∧
      M ≤ (ThermalA.run cfg temps s).limit_idx ∧
      (ThermalA.run cfg temps s).limit_idx ≤ H := by
  intro temps
  induction temps with
  | nil => intro s h1 h2 h3 h4 h5; exact ⟨h1, h2, h3, h4, h5⟩
  | cons t ts ih =>
    intro s h1 h2 h3 h4 h5
    have hs := checkTempA_step cfg t true s h1 (by rw [h2]; exact h4)
      (by rw [h3]; exact h5) (by rw [h3]; exact hH) (by rw [h2]; exact hstep)
    have hrun : ThermalA.run cfg (t :: ts) s =
        ThermalA.run cfg ts (ThermalA.check_temp cfg t true s) := rfl
    rw [hrun]
    exact ih (ThermalA.check_temp cfg t true s) hs.1 (by rw [hs.2.1, h2])
      (by rw [hs.2.2.1, h3]) (by rw [hs.2.1, h2] at hs; exact hs.2.2.2.1)
      (by rw [hs.2.2.1, h3] at hs; exact hs.2.2.2.2)

/-! ## Claim theorems -/

/-- C1: the moving average computed by the hotplug decision step does NOT
always equal the sum of the most recent N stored samples divided by N.
With N = 2, buffer `[10, 20]` and the cursor at 0 (i.e. after a wrap), the
summation loop reads `history[0]` twice and never reads `history[1]`, so
the code computes 10 while the average of the two stored samples is 15;
with the cursor at the buffer end (index 1) the loop is correct and yields
15.  This contradicts the code's own comment, which says the loop
calculates the average load over the sampling periods. -/
theorem c1_average_loop_miscounts_after_wrap :
    AutoHotplug.avg_running [10, 20] 0 1 2 = 10 ∧
    AutoHotplug.trueAvg [10, 20] 2 = 15 ∧
    AutoHotplug.avg_running [10, 20] 1 1 2 = 15 := by decide

/-- C2: growing `sampling_periods` mid-run from 10 to 20 makes the decision
step krealloc the buffer with the OLD length (10 ints, and the returned
pointer is even discarded) while recomputing `index_max_value = 19`, so the
new bound is NOT below the allocated length: subsequent cycles read and
write `history[10..19]` out of bounds. -/
theorem c2_resize_bound_exceeds_allocation :
    (AutoHotplug.resizeStep ⟨10, 10, 9⟩ 20 true).bound = 19 ∧
    (AutoHotplug.resizeStep ⟨10, 10, 9⟩ 20 true).capacity = 10 ∧
    ¬((AutoHotplug.resizeStep ⟨10, 10, 9⟩ 20 true).bound <
      (AutoHotplug.resizeStep ⟨10, 10, 9⟩ 20 true).capacity) := by decide

/-- C3 counterexample: `hotplug_disable(true)` cancels only the offline,
decision and unpause delayed works.  From a state with a queued
online-all work item (as scheduled by the decision step's all-on branch),
the item is still pending after the call returns, so a hotplug task
scheduled before the call can still execute afterwards — refuting the
claim that no previously scheduled hotplug task (including any online
action already triggered) subsequently executes. -/
theorem c3_counterexample :
    ¬((AutoHotplug.hotplug_disable true exHStateOnlineAll).pendingOnlineAll = false) := by
  decide

/-- C3 (amended): after `hotplug_disable(true)` from an enabled state,
`HOTPLUG_DISABLED` is set and the offline, decision and unpause delayed
tasks are cancelled synchronously — none of THOSE can fire afterwards;
the plain work items (online-all, online-single, offline-all) are not
cancelled. -/
theorem c3_disable_cancels_delayed_tasks (s : AutoHotplug.HState)
    (h : s.flags.disabled = false) :
    (AutoHotplug.hotplug_disable true s).flags.disabled = true ∧
    (AutoHotplug.hotplug_disable true s).pendingOffline = false ∧
    (AutoHotplug.hotplug_disable true s).pendingDecision = false ∧
    (AutoHotplug.hotplug_disable true s).pendingUnpause = false := by
  unfold AutoHotplug.hotplug_disable
  simp [h]

/-- C3 witness: the amended statement evaluated on the concrete example
state. -/
theorem c3_witness :
    exHStateOnlineAll.flags.disabled = false ∧
    (AutoHotplug.hotplug_disable true exHStateOnlineAll).flags.disabled = true ∧
    (AutoHotplug.hotplug_disable true exHStateOnlineAll).pendingOffline = false ∧
    (AutoHotplug.hotplug_disable true exHStateOnlineAll).pendingDecision = false ∧
    (AutoHotplug.hotplug_disable true exHStateOnlineAll).pendingUnpause = false := by
  have h := c3_disable_cancels_delayed_tasks exHStateOnlineAll (by decide)
  exact ⟨by decide, h.1, h.2.1, h.2.2.1, h.2.2.2⟩

/-- C9 counterexample: writing the out-of-range raw value 0 to
`min_online_cpus` (documented range 1..CPUS_AVAILABLE, prior value 2,
4 CPUs available) is NOT rejected: the setter returns success (0) and
stores the clamp value 1, so neither is a validation failure reported nor
is the prior value retained. -/
theorem c9_counterexample :
    AutoHotplug.min_online_cpus_set 2 0 4 = (0, 1) ∧
    ¬((AutoHotplug.min_online_cpus_set 2 0 4).1 ≠ 0 ∧
      (AutoHotplug.min_online_cpus_set 2 0 4).2 = 2) := by decide

/-- C9 (amended): the range-validated setters (sampling periods, the three
load thresholds, the minimum sampling rate, and both variants' thermal
setters) reject an out-of-range write with -EINVAL and retain the prior
value; `min_online_cpus` and `max_online_cpus` instead accept every
parsed write and clamp an out-of-range value to 1, resp. CPUS_AVAILABLE. -/
theorem c9_tunable_write_policy :
    (∀ (old : Nat) (num : Int), (50 < num ∨ num < 5) →
        AutoHotplug.set_sampling_periods old num = (-22, old)) ∧
    (∀ (old : Nat) (num : Int), (550 < num ∨ num < 270) →
        AutoHotplug.set_enable_all_load_threshold old num = (-22, old)) ∧
    (∀ (old : Nat) (num : Int), (250 < num ∨ num < 130) →
        AutoHotplug.set_enable_load_threshold old num = (-22, old)) ∧
    (∀ (old : Nat) (num : Int), (125 < num ∨ num < 40) →
        AutoHotplug.set_disable_load_threshold old num = (-22, old)) ∧
    (∀ (old : Nat) (num : Int), (50 < num ∨ num < 10) →
        AutoHotplug.set_min_sampling_rate old num = (-22, old)) ∧
    (∀ (old : Nat) (num : Int), (74 < num ∨ num < 40) →
        ThermalB.set_throttle_temp old num = (-22, old)) ∧
    (∀ (old : Nat) (num : Int), (80 < num ∨ num < 45) →
        ThermalA.set_throttle_temp old num = (-22, old)) ∧
    (∀ (old : Nat) (num : Int), (8 < num ∨ num < 4) →
        ThermalA.set_min_freq_index old num = (-22, old)) ∧
    (∀ (old cpus : Nat) (num : Int), (num < 1 ∨ (cpus : Int) < num) →
        AutoHotplug.min_online_cpus_set old num cpus = (0, 1)) ∧
    (∀ (old cpus : Nat) (num : Int), (num < 1 ∨ (cpus : Int) < num) →
        AutoHotplug.max_online_cpus_set old num cpus = (0, cpus)) := by
  refine ⟨?_, ?_, ?_, ?_, ?_, ?_, ?_, ?_, ?_, ?_⟩
  · intro old num h; unfold AutoHotplug.set_sampling_periods; rw [if_pos h]
  · intro old num h; unfold AutoHotplug.set_enable_all_load_threshold; rw [if_pos h]
  · intro old num h; unfold AutoHotplug.set_enable_load_threshold; rw [if_pos h]
  · intro old num h; unfold AutoHotplug.set_disable_load_threshold; rw [if_pos h]
  · intro old num h; unfold AutoHotplug.set_min_sampling_rate; rw [if_pos h]
  · intro old num h; unfold ThermalB.set_throttle_temp; rw [if_pos h]
  · intro old num h; unfold ThermalA.set_throttle_temp; rw [if_pos h]
  · intro old num h; unfold ThermalA.set_min_freq_index; rw [if_pos h]
  · intro old cpus num h; unfold AutoHotplug.min_online_cpus_set
    dsimp only; rw [if_pos h]; rfl
  · intro old cpus num h; unfold AutoHotplug.max_online_cpus_set
    dsimp only; rw [if_pos h]; simp

/-- C9 witness: the amended policy evaluated at concrete writes. -/
theorem c9_witness :
    AutoHotplug.set_sampling_periods 10 60 = (-22, 10) ∧
    AutoHotplug.set_enable_all_load_threshold 400 600 = (-22, 400) ∧
    AutoHotplug.set_enable_load_threshold 200 100 = (-22, 200) ∧
    AutoHotplug.set_disable_load_threshold 80 130 = (-22, 80) ∧
    AutoHotplug.set_min_sampling_rate 20 5 = (-22, 20) ∧
    ThermalB.set_throttle_temp 64 80 = (-22, 64) ∧
    ThermalA.set_throttle_temp 70 81 = (-22, 70) ∧
    ThermalA.set_min_freq_index 7 9 = (-22, 7) ∧
    AutoHotplug.min_online_cpus_set 2 0 4 = (0, 1) ∧
    AutoHotplug.max_online_cpus_set 4 9 4 = (0, 4) := by
  have h := c9_tunable_write_policy
  exact ⟨h.1 10 60 (by decide), h.2.1 400 600 (by decide), h.2.2.1 200 100 (by decide),
    h.2.2.2.1 80 130 (by decide), h.2.2.2.2.1 20 5 (by decide),
    h.2.2.2.2.2.1 64 80 (by decide), h.2.2.2.2.2.2.1 70 81 (by decide),
    h.2.2.2.2.2.2.2.1 7 9 (by decide), h.2.2.2.2.2.2.2.2.1 2 4 0 (by decide),
    h.2.2.2.2.2.2.2.2.2 4 4 9 (by decide)⟩

/-- C10: if `hotplug_boostpulse()` runs with `Disabled`, `SuspendActive`
and `BoostActive` all clear, at least two CPUs online, the online count
below `max_online_cpus` and no single-offline work pending, it only sets
`BOOSTPULSE_ACTIVE`: no online action, no unpause, no pause, no other
pending-work change (part 1).  While `BOOSTPULSE_ACTIVE` is set every
further `hotplug_boostpulse()` is a no-op (part 2).  The decision step
preserves `BOOSTPULSE_ACTIVE` on every cycle that does not take the
single-offline branch (part 3) and clears it exactly when that branch
fires (part 4); `hotplug_disable` (part 5) and the unpause work (part 6)
never touch the flag — so the flag stays latched until the sampler's
single-offline branch next runs. -/
theorem c10_boostpulse_latch :
    (∀ (online max : Nat) (s : AutoHotplug.HState),
        s.flags.disabled = false → s.flags.suspend = false →
        s.flags.boost = false → 2 ≤ online → online < max →
        s.pendingOffline = false →
        (AutoHotplug.hotplug_boostpulse online max s).flags.boost = true ∧
        (AutoHotplug.hotplug_boostpulse online max s).flags.paused = s.flags.paused ∧
        (AutoHotplug.hotplug_boostpulse online max s).flags.disabled = false ∧
        (AutoHotplug.hotplug_boostpulse online max s).flags.suspend = false ∧
        (AutoHotplug.hotplug_boostpulse online max s).pendingDecision = s.pendingDecision ∧
        (AutoHotplug.hotplug_boostpulse online max s).pendingOffline = false ∧
        (AutoHotplug.hotplug_boostpulse online max s).pendingUnpause = s.pendingUnpause ∧
        (AutoHotplug.hotplug_boostpulse online max s).pendingOnlineAll = s.pendingOnlineAll ∧
        (AutoHotplug.hotplug_boostpulse online max s).pendingOnlineSingle
          = s.pendingOnlineSingle ∧
        (AutoHotplug.hotplug_boostpulse online max s).pendingOfflineAll
          = s.pendingOfflineAll) ∧
    (∀ (online max : Nat) (s : AutoHotplug.HState), s.flags.boost = true →
        AutoHotplug.hotplug_boostpulse online max s = s) ∧
    (∀ (inp : AutoHotplug.DecisionInput) (s : AutoHotplug.HState),
        ¬AutoHotplug.singleOffTaken inp s →
        (AutoHotplug.hotplug_decision inp s).flags.boost = s.flags.boost) ∧
    (∀ (inp : AutoHotplug.DecisionInput) (s : AutoHotplug.HState),
        AutoHotplug.singleOffTaken inp s →
        (AutoHotplug.hotplug_decision inp s).flags.boost = false) ∧
    (∀ (f : Bool) (s : AutoHotplug.HState),
        (AutoHotplug.hotplug_disable f s).flags.boost = s.flags.boost) ∧
    (∀ (s : AutoHotplug.HState),
        (AutoHotplug.hotplug_unpause s).flags.boost = s.flags.boost) := by
  refine ⟨?_, ?_, ?_, ?_, ?_, ?_⟩
  · intro online max s h1 h2 h3 h4 h5 h6
    have h7 : ¬online < 2 := by omega
    simp [AutoHotplug.hotplug_boostpulse, h1, h2, h3, h5, h6, h7]
  · intro online max s hb
    unfold AutoHotplug.hotplug_boostpulse
    split_ifs with h1 h2 <;> simp_all
  · intro inp s h
    unfold AutoHotplug.hotplug_decision
    split_ifs with hd hall hp hon hoff <;> simp
    exact absurd ⟨hd, hall, hp, hon, hoff⟩ h
  · intro inp s h
    obtain ⟨hd, hall, hp, hon, hoff⟩ := h
    unfold AutoHotplug.hotplug_decision
    rw [if_pos hd, if_neg hall, if_neg hp, if_neg hon, if_pos hoff]
  · intro f s
    unfold AutoHotplug.hotplug_disable
    split_ifs <;> rfl
  · intro s; rfl

/-- C10 witness: the six parts evaluated on concrete states and inputs:
a boost pulse from the idle example state with 2 of 4 CPUs online latches
the flag and schedules nothing; a second pulse is the identity; the
mid-band decision cycle preserves the flag and the offline-band cycle
clears it; disable and unpause leave it untouched. -/
theorem c10_witness :
    ((AutoHotplug.hotplug_boostpulse 2 4 exHStateIdle).flags.boost = true ∧
      (AutoHotplug.hotplug_boostpulse 2 4 exHStateIdle).flags.paused
        = exHStateIdle.flags.paused ∧
      (AutoHotplug.hotplug_boostpulse 2 4 exHStateIdle).flags.disabled = false ∧
      (AutoHotplug.hotplug_boostpulse 2 4 exHStateIdle).flags.suspend = false ∧
      (AutoHotplug.hotplug_boostpulse 2 4 exHStateIdle).pendingDecision
        = exHStateIdle.pendingDecision ∧
      (AutoHotplug.hotplug_boostpulse 2 4 exHStateIdle).pendingOffline = false ∧
      (AutoHotplug.hotplug_boostpulse 2 4 exHStateIdle).pendingUnpause
        = exHStateIdle.pendingUnpause ∧
      (AutoHotplug.hotplug_boostpulse 2 4 exHStateIdle).pendingOnlineAll
        = exHStateIdle.pendingOnlineAll ∧
      (AutoHotplug.hotplug_boostpulse 2 4 exHStateIdle).pendingOnlineSingle
        = exHStateIdle.pendingOnlineSingle ∧
      (AutoHotplug.hotplug_boostpulse 2 4 exHStateIdle).pendingOfflineAll
        = exHStateIdle.pendingOfflineAll) ∧
    AutoHotplug.hotplug_boostpulse 2 4 (AutoHotplug.hotplug_boostpulse 2 4 exHStateIdle)
      = AutoHotplug.hotplug_boostpulse 2 4 exHStateIdle ∧
    (AutoHotplug.hotplug_decision exInputIdle
        (AutoHotplug.hotplug_boostpulse 2 4 exHStateIdle)).flags.boost
      = (AutoHotplug.hotplug_boostpulse 2 4 exHStateIdle).flags.boost ∧
    (AutoHotplug.hotplug_decision exInputOff
        (AutoHotplug.hotplug_boostpulse 2 4 exHStateIdle)).flags.boost = false ∧
    (AutoHotplug.hotplug_disable false
        (AutoHotplug.hotplug_boostpulse 2 4 exHStateIdle)).flags.boost
      = (AutoHotplug.hotplug_boostpulse 2 4 exHStateIdle).flags.boost ∧
    (AutoHotplug.hotplug_unpause
        (AutoHotplug.hotplug_boostpulse 2 4 exHStateIdle)).flags.boost
      = (AutoHotplug.hotplug_boostpulse 2 4 exHStateIdle).flags.boost := by
  have h := c10_boostpulse_latch
  exact ⟨h.1 2 4 exHStateIdle (by decide) (by decide) (by decide) (by decide)
      (by decide) (by decide),
    h.2.1 2 4 _ (by decide),
    h.2.2.1 exInputIdle _ (by decide),
    h.2.2.2.1 exInputOff _ (by decide),
    h.2.2.2.2.1 false _,
    h.2.2.2.2.2 _⟩

/-- C4 counterexample: two (mutex-serialized) invocations of the sampling
step at 85 °C ≥ SHUTDOWN_TEMP each call `orderly_poweroff` — the mutex
only serializes the calls, nothing records that a shutdown was already
triggered — so the power-off action is invoked twice, not at most once in
total. -/
theorem c4_counterexample :
    (ThermalB.check_temp exCfgB (some 85) true
      (ThermalB.check_temp exCfgB (some 85) true exStateB)).poweroff_count = 2 ∧
    ¬((ThermalB.check_temp exCfgB (some 85) true
      (ThermalB.check_temp exCfgB (some 85) true exStateB)).poweroff_count ≤ 1) := by
  decide

/-- C4 (amended): each serialized invocation of the sampling step that
reads `T ≥ SHUTDOWN_TEMP` (with the table already resolved) calls
`orderly_poweroff` exactly once; the `emergency_shutdown_mutex` makes the
calls mutually exclusive but does not make the action at-most-once in
total — n such invocations perform n calls. -/
theorem c4_shutdown_fires_once_per_invocation (cfg : ThermalB.Config)
    (s : ThermalB.State) (temp : Nat) (b : Bool)
    (h1 : s.limit_init = true) (ht : ThermalB.SHUTDOWN_TEMP ≤ temp) :
    (ThermalB.check_temp cfg (some temp) b s).poweroff_count
      = s.poweroff_count + 1 := by
  simp only [ThermalB.check_temp, h1, if_true]
  unfold ThermalB.check_throttle
  rw [if_pos ht]
  simp

/-- C4 witness: the amended statement evaluated at the example state and
a reading of 85 °C. -/
theorem c4_witness :
    (ThermalB.check_temp exCfgB (some 85) true exStateB).poweroff_count
      = exStateB.poweroff_count + 1 :=
  c4_shutdown_fires_once_per_invocation exCfgB exStateB 85 true (by decide) (by decide)

/-- C5 counterexample: a shutdown-band sample taken while `limit_idx` is
still at the top of the range applies `table[limit_idx]` — the HIGHEST
table frequency (500) — as the ceiling, not the minimum allowed frequency
`table[limit_idx_low]` (100): the claimed clamp-to-minimum does not
happen. -/
theorem c5_counterexample :
    (ThermalB.check_temp exCfgB (some 85) true exStateB).limited_max_freq = 500 ∧
    exCfgB.table.getD 0 0 = 100 ∧
    ¬((ThermalB.check_temp exCfgB (some 85) true exStateB).limited_max_freq
      = exCfgB.table.getD 0 0) := by decide

/-- C5 (amended): whenever the sampling step reads `T ≥ SHUTDOWN_TEMP`
with the frequency table already resolved, it calls `orderly_poweroff`,
applies the frequency of the CURRENT `limit_idx` (not the minimum) as the
ceiling, clears `enabled` and schedules no further poll. -/
theorem c5_shutdown_behaviour (cfg : ThermalB.Config) (s : ThermalB.State)
    (temp : Nat) (b : Bool)
    (h1 : s.limit_init = true) (ht : ThermalB.SHUTDOWN_TEMP ≤ temp) :
    (ThermalB.check_temp cfg (some temp) b s).poweroff_count = s.poweroff_count + 1 ∧
    (ThermalB.check_temp cfg (some temp) b s).limited_max_freq
      = cfg.table.getD s.limit_idx.toNat 0 ∧
    (ThermalB.check_temp cfg (some temp) b s).enabled = false ∧
    (ThermalB.check_temp cfg (some temp) b s).rescheduled = false ∧
    (ThermalB.check_temp cfg (some temp) b s).next_delay = none := by
  simp only [ThermalB.check_temp, h1, if_true]
  unfold ThermalB.check_throttle
  rw [if_pos ht]
  unfold ThermalB.setmaxfreq ThermalB.reschedule
  simp

/-- C5 witness: the amended statement evaluated at the example state and
a reading of 85 °C. -/
theorem c5_witness :
    (ThermalB.check_temp exCfgB (some 85) true exStateB).poweroff_count
      = exStateB.poweroff_count + 1 ∧
    (ThermalB.check_temp exCfgB (some 85) true exStateB).limited_max_freq
      = exCfgB.table.getD exStateB.limit_idx.toNat 0 ∧
    (ThermalB.check_temp exCfgB (some 85) true exStateB).enabled = false ∧
    (ThermalB.check_temp exCfgB (some 85) true exStateB).rescheduled = false ∧
    (ThermalB.check_temp exCfgB (some 85) true exStateB).next_delay = none :=
  c5_shutdown_behaviour exCfgB exStateB 85 true (by decide) (by decide)

/-- C6 counterexample: with the frequency table unavailable, the first two
sampling cycles each attempt resolution (`resolve_attempts` reaches 2,
refuting "not retried on later sampling cycles"), and as soon as the table
becomes available a later cycle resolves it and applies a ceiling (400
instead of no-limit), refuting "no frequency ceiling is ever applied
thereafter". -/
theorem c6_counterexample :
    (ThermalB.check_temp exCfgB (some 50) false
      (ThermalB.check_temp exCfgB (some 50) false exStateB0)).resolve_attempts = 2 ∧
    ¬((ThermalB.check_temp exCfgB (some 50) false
      (ThermalB.check_temp exCfgB (some 50) false exStateB0)).resolve_attempts ≤ 1) ∧
    (ThermalB.check_temp exCfgB (some 70) true
      (ThermalB.check_temp exCfgB (some 50) false
        (ThermalB.check_temp exCfgB (some 50) false exStateB0))).limited_max_freq
      = 400 ∧
    ¬((ThermalB.check_temp exCfgB (some 70) true
      (ThermalB.check_temp exCfgB (some 50) false
        (ThermalB.check_temp exCfgB (some 50) false exStateB0))).limited_max_freq
      = ThermalB.MSM_CPUFREQ_NO_LIMIT) := by decide

/-- C6 (amended): a cycle on which the table cannot be resolved performs
one (more) resolution attempt, leaves the limiter state untouched (no
ceiling applied, `limit_init` still clear, `limit_idx` unchanged) and
re-arms the sampler when enabled, so resolution is retried on the next
cycle rather than permanently disabled. -/
theorem c6_table_resolution_is_retried (cfg : ThermalB.Config)
    (s : ThermalB.State) (temp : Nat) (h : s.limit_init = false) :
    (ThermalB.check_temp cfg (some temp) false s).limit_init = false ∧
    (ThermalB.check_temp cfg (some temp) false s).resolve_attempts
      = s.resolve_attempts + 1 ∧
    (ThermalB.check_temp cfg (some temp) false s).limited_max_freq
      = s.limited_max_freq ∧
    (ThermalB.check_temp cfg (some temp) false s).limit_idx = s.limit_idx ∧
    (ThermalB.check_temp cfg (some temp) false s).rescheduled = s.enabled := by
  simp [ThermalB.check_temp, h]

/-- C6 witness: the amended statement evaluated at the uninitialised
example state. -/
theorem c6_witness :
    (ThermalB.check_temp exCfgB (some 50) false exStateB0).limit_init = false ∧
    (ThermalB.check_temp exCfgB (some 50) false exStateB0).resolve_attempts
      = exStateB0.resolve_attempts + 1 ∧
    (ThermalB.check_temp exCfgB (some 50) false exStateB0).limited_max_freq
      = exStateB0.limited_max_freq ∧
    (ThermalB.check_temp exCfgB (some 50) false exStateB0).limit_idx
      = exStateB0.limit_idx ∧
    (ThermalB.check_temp exCfgB (some 50) false exStateB0).rescheduled
      = exStateB0.enabled :=
  c6_table_resolution_is_retried exCfgB exStateB0 50 (by decide)

/-- C7 counterexample: in the appended variant `limit_idx` is unsigned,
and the throttle band's step-down clamps only when the result is still
below `min_freq_index` — with the unvalidated device-tree `freq_step = 15`
and `limit_idx = 9` the subtraction wraps to 2^32 - 6, which is NOT below
`min_freq_index`, so `limit_idx` leaves the validated range [7, 9]
established at the first table read. -/
theorem c7_counterexample :
    (ThermalA.check_temp exCfgA (some 70) true exStateA).limit_idx = 4294967290 ∧
    ¬((ThermalA.check_temp exCfgA (some 70) true exStateA).limit_idx
      ≤ exStateA.limit_idx_high) := by decide

/-- C7 (amended): for every sequence of temperature readings the index
stays within the validated range provided `freq_step` is small enough to
avoid 32-bit wraparound: in the shutdown variant (signed `int` index,
range [limit_idx_low = 0, limit_idx_high]) it suffices that
`freq_step + limit_idx_high < 2^31`; in the appended variant (unsigned
index, range [min_freq_index, limit_idx_high]) it suffices that
`freq_step ≤ min_freq_index`.  For larger `freq_step` the wraparound
counterexample above escapes the range. -/
theorem c7_thermal_index_range :
    (∀ (cfg : ThermalB.Config) (s : ThermalB.State) (temps : List (Option Nat)),
        s.limit_init = true → s.limit_idx_low = 0 →
        0 ≤ s.limit_idx → s.limit_idx ≤ s.limit_idx_high →
        s.limit_idx_high < 2147483648 →
        (cfg.freq_step : Int) + s.limit_idx_high < 2147483648 →
        0 ≤ (ThermalB.run cfg temps s).limit_idx ∧
        (ThermalB.run cfg temps s).limit_idx ≤ s.limit_idx_high) ∧
    (∀ (cfg : ThermalA.Config) (s : ThermalA.State) (temps : List (Option Nat)),
        s.limit_init = true →
        s.min_freq_index ≤ s.limit_idx → s.limit_idx ≤ s.limit_idx_high →
        s.limit_idx_high < U32 → cfg.freq_step ≤ s.min_freq_index →
        s.min_freq_index ≤ (ThermalA.run cfg temps s).limit_idx ∧
        (ThermalA.run cfg temps s).limit_idx ≤ s.limit_idx_high) := by
  constructor
  · intro cfg s temps h1 h2 h4 h5 hH hstep
    have h := runB_range cfg s.limit_idx_high hH hstep temps s h1 h2 rfl h4 h5
    exact ⟨h.2.2.2.2.1, h.2.2.2.2.2⟩
  · intro cfg s temps h1 h4 h5 hH hstep
    have h := runA_range cfg s.min_freq_index s.limit_idx_high hH hstep temps s
      h1 rfl rfl h4 h5
    exact ⟨h.2.2.2.1, h.2.2.2.2⟩

/-- C7 witness: the amended invariant evaluated on concrete runs of both
variants (temperatures spanning shutdown, throttle and recovery bands),
with the benign `freq_step = 1` for the appended variant. -/
theorem c7_witness :
    (0 ≤ (ThermalB.run exCfgB [some 70, some 85, some 30] exStateB).limit_idx ∧
      (ThermalB.run exCfgB [some 70, some 85, some 30] exStateB).limit_idx
        ≤ exStateB.limit_idx_high) ∧
    (exStateA.min_freq_index
        ≤ (ThermalA.run exCfgA1 [some 72, some 90, some 30] exStateA).limit_idx ∧
      (ThermalA.run exCfgA1 [some 72, some 90, some 30] exStateA).limit_idx
        ≤ exStateA.limit_idx_high) := by
  have h := c7_thermal_index_range
  exact ⟨h.1 exCfgB exStateB [some 70, some 85, some 30] (by decide) (by decide)
      (by decide) (by decide) (by decide) (by decide),
    h.2 exCfgA1 exStateA [some 72, some 90, some 30] (by decide) (by decide)
      (by decide) (by decide) (by decide)⟩

/-- C8 counterexample: with `throttle_temp = 64`, hysteresis 4 and
`freq_step = 1`, the oscillating reading sequence 65, 63, 65 steps the
index 4 → 3 on the first throttle sample, holds at 63 (warning band), but
steps DOWN AGAIN to 2 on the next 65 — the index keeps changing after the
first throttle step, refuting the oscillation part of the claim. -/
theorem c8_counterexample :
    (ThermalB.run exCfgB [some 65] exStateB).limit_idx = 3 ∧
    (ThermalB.run exCfgB [some 65, some 63, some 65] exStateB).limit_idx = 2 ∧
    ¬((ThermalB.run exCfgB [some 65, some 63, some 65] exStateB).limit_idx
      = (ThermalB.run exCfgB [some 65] exStateB).limit_idx) := by decide

/-- C8 (amended): the hysteresis half of the claim holds — the index only
ever moves back toward `limit_idx_high` on a sample strictly below
`throttle_temp - hysteresis` (part 1), and over any sequence of readings
that all stay at or above `throttle_temp - hysteresis` the index never
increases (part 2) — but it is not frozen: each further reading at or
above `throttle_temp` steps it down again until `limit_idx_low` is
reached, as the counterexample shows. -/
theorem c8_hysteresis :
    (∀ (cfg : ThermalB.Config) (s : ThermalB.State) (temp : Nat),
        s.limit_init = true → s.limit_idx_low = 0 →
        0 ≤ s.limit_idx → s.limit_idx ≤ s.limit_idx_high →
        s.limit_idx_high < 2147483648 →
        (cfg.freq_step : Int) + s.limit_idx_high < 2147483648 →
        cfg.temp_hysteresis_degC ≤ s.throttle_temp → s.throttle_temp < U32 →
        s.limit_idx < (ThermalB.check_temp cfg (some temp) true s).limit_idx →
        temp < s.throttle_temp - cfg.temp_hysteresis_degC) ∧
    (∀ (cfg : ThermalB.Config) (s : ThermalB.State) (temps : List Nat),
        s.limit_init = true → s.limit_idx_low = 0 →
        0 ≤ s.limit_idx → s.limit_idx ≤ s.limit_idx_high →
        s.limit_idx_high < 2147483648 →
        (cfg.freq_step : Int) + s.limit_idx_high < 2147483648 →
        cfg.temp_hysteresis_degC ≤ s.throttle_temp → s.throttle_temp < U32 →
        (∀ t ∈ temps, s.throttle_temp - cfg.temp_hysteresis_degC ≤ t) →
        (ThermalB.run cfg (temps.map some) s).limit_idx ≤ s.limit_idx) := by
  constructor
  · intro cfg s temp h1 h2 h4 h5 hH hstep hhy htt hinc
    by_contra hcon
    have ht : s.throttle_temp - cfg.temp_hysteresis_degC ≤ temp := by omega
    have hni := checkThrottleB_no_increase cfg temp s h2 h4 h5 hH hstep hhy htt ht
    have : (ThermalB.check_temp cfg (some temp) true s).limit_idx
        = (ThermalB.check_throttle cfg temp s).limit_idx := by
      simp [ThermalB.check_temp, h1]
    omega
  · intro cfg s temps h1 h2 h4 h5 hH hstep hhy htt hall
    exact runB_no_increase cfg s.limit_idx_high s.throttle_temp hH hstep hhy htt
      temps s h1 h2 rfl rfl h4 h5 hall

/-- C8 witness: both amended parts evaluated on the example state — a
cool reading of 30 °C that raises the index (so part 1's implication is
exercised with a true conclusion), and the oscillating sequence 65, 63,
65 for part 2. -/
theorem c8_witness :
    (exStateB.limit_idx < (ThermalB.check_temp exCfgB (some 30) true
        (ThermalB.run exCfgB [some 65] exStateB)).limit_idx →
      (30 : Nat) < exStateB.throttle_temp - exCfgB.temp_hysteresis_degC) ∧
    (ThermalB.run exCfgB (([65, 63, 65] : List Nat).map some) exStateB).limit_idx
      ≤ exStateB.limit_idx := by
  have h := c8_hysteresis
  constructor
  · intro hlt
    exact h.1 exCfgB (ThermalB.run exCfgB [some 65] exStateB) 30 (by decide)
      (by decide) (by decide) (by decide) (by decide) (by decide) (by decide)
      (by decide) (by decide)
  · exact h.2 exCfgB exStateB [65, 63, 65] (by decide) (by decide) (by decide)
      (by decide) (by decide) (by decide) (by decide) (by decide) (by decide)
